import Mathlib

/-!
Verification of the esphome_dashboard Home Assistant integration.

Shallow embedding of the integration sources:
  custom_components/esphome_dashboard/update.py
  custom_components/esphome_dashboard/coordinator.py
  custom_components/esphome_dashboard/config_flow.py

Optional string fields mirror Python `None`-able attributes; Python
truthiness on such a value (None and "" are falsy) is modelled by
`truthyStr`.
-/

namespace EsphomeDashboard

/-- Python truthiness of an optional string: `None` and `""` are falsy. -/
def truthyStr : Option String → Bool
  | none => false
  | some s => if s = "" then false else true

/-- A device record from the dashboard `configured` list
(`esphome_dashboard_api.ConfiguredDevice`).  `name` is always read with
`device["name"]`; the other keys are read with `.get`, so they are optional.
A field value `none` models both an absent key and a key holding `None`. -/
structure ConfiguredDevice where
  name : String
  configuration : Option String
  address : Option String
  deployed_version : Option String
  current_version : Option String
deriving Repr, DecidableEq

/-- Per-entity state of `ESPHomeDashboardUpdateEntity` (update.py).

`esphome_entry_data = some info` models a linked live ESPHome
`RuntimeEntryData`; `info` is `some v` when its `device_info` is present and
reports `esphome_version = v`, and `none` when `device_info` is absent. -/
structure EntityState where
  device_name : String
  configuration : String
  address : Option String
  esphome_entry_data : Option (Option String)
  cached_device_version : Option String
  dashboard_deployed_version : Option String
  attr_latest_version : Option String
  attr_available : Bool
  supports_install : Bool
deriving Repr, DecidableEq

/-- `ESPHomeDashboardUpdateEntity._update_attrs` (update.py lines 298-319). -/
def update_attrs (s : EntityState) (dd : ConfiguredDevice) : EntityState :=
  { s with
    attr_available := true
    dashboard_deployed_version := dd.deployed_version
    attr_latest_version :=
      if truthyStr dd.current_version then dd.current_version
      else dd.deployed_version
    address := dd.address
    supports_install := truthyStr dd.address }

/-- `ESPHomeDashboardUpdateEntity.__init__` (update.py lines 127-174):
stores the configuration filename (defaulting to `<name>.yaml` when the key
is absent) and the address, initializes all version tiers to unset, then
calls `_update_attrs`. -/
def initEntity (device_name : String) (dd : ConfiguredDevice) : EntityState :=
  update_attrs
    { device_name := device_name
      configuration := dd.configuration.getD (device_name ++ ".yaml")
      address := dd.address
      esphome_entry_data := none
      cached_device_version := none
      dashboard_deployed_version := none
      attr_latest_version := none
      attr_available := false
      supports_install := false }
    dd

/-- `ESPHomeDashboardUpdateEntity.installed_version` (update.py lines
321-337): live ESPHome integration version first, then the cached direct
query result (Python truthiness), then the dashboard deployed version. -/
def installed_version (s : EntityState) : Option String :=
  match s.esphome_entry_data with
  | some (some v) => some v
  | _ =>
    if truthyStr s.cached_device_version then s.cached_device_version
    else s.dashboard_deployed_version

/-- One insertion into the name-indexed device mapping; mirrors one step of
the Python dict comprehension `{device["name"]: device for device in
configured_devices}`: a later record for an existing name overwrites the
earlier one. -/
def insertByName (m : List (String × ConfiguredDevice)) (d : ConfiguredDevice) :
    List (String × ConfiguredDevice) :=
  if m.any (fun p => p.1 = d.name) then
    m.map (fun p => if p.1 = d.name then (d.name, d) else p)
  else m ++ [(d.name, d)]

/-- The name-indexed device mapping built by the coordinator
(coordinator.py line 49). -/
def indexByName (devices : List ConfiguredDevice) :
    List (String × ConfiguredDevice) :=
  devices.foldl insertByName []

/-- Lookup in the coordinator data mapping (`coordinator.data[name]`). -/
def lookupDevice (m : List (String × ConfiguredDevice)) (n : String) :
    Option ConfiguredDevice :=
  (m.find? (fun p => p.1 = n)).map (fun p => p.2)

/-- Outcome of `api.get_devices()` as seen by the coordinator: a successful
response with the `configured` list (`devices_data.get("configured", [])`),
an `aiohttp.ClientResponseError` with its HTTP status, or any other
exception. -/
inductive FetchOutcome where
  | success (configured : List ConfiguredDevice)
  | responseError (status : Nat) (msg : String)
  | otherError (msg : String)
deriving Repr, DecidableEq

/-- Result of one coordinator refresh: the indexed data, or one of the two
distinct failure classes raised by `_async_update_data`
(`ConfigEntryAuthFailed` versus `UpdateFailed`). -/
inductive UpdateResult where
  | data (m : List (String × ConfiguredDevice))
  | configEntryAuthFailed (msg : String)
  | updateFailed (msg : String)
deriving Repr, DecidableEq

/-- `ESPHomeDashboardCoordinator._async_update_data` (coordinator.py lines
40-57). -/
def coordinator_update_data : FetchOutcome → UpdateResult
  | .success devices => .data (indexByName devices)
  | .responseError status msg =>
    if status = 401 ∨ status = 403 then
      .configEntryAuthFailed
        "Authentication failed. Please update your credentials."
    else
      .updateFailed ("Error communicating with dashboard: " ++ msg)
  | .otherError msg =>
    .updateFailed ("Error communicating with dashboard: " ++ msg)

/-- Network side effects performed by one `async_install` call. -/
structure InstallEffects where
  compile_called : Bool
  upload_called : Bool
  refresh_requested : Bool
  device_queried : Bool
deriving Repr, DecidableEq

/-- ESPHome native API default port (update.py line 31). -/
def DEFAULT_PORT : Nat := 6053

/-- The fixed mDNS discovery timeout in seconds passed to
`AsyncServiceInfo.async_request` (update.py line 211, `timeout=3.0`). -/
def MDNS_DISCOVERY_TIMEOUT_SECONDS : Nat := 3

/-- Outcome of the mDNS lookup in `_async_discover_device_port`: a response
(whose advertised port may itself be absent), no response within the
timeout, or one of the caught exception classes (TimeoutError, OSError,
AttributeError). -/
inductive DiscoveryOutcome where
  | response (port : Option Nat)
  | noResponse
  | timeoutError
  | osError
  | attributeError
deriving Repr, DecidableEq

/-- `ESPHomeDashboardUpdateEntity._async_discover_device_port` (update.py
lines 201-219): returns the advertised port on a response, `none` on no
response or on any caught exception. -/
def discover_device_port : DiscoveryOutcome → Option Nat
  | .response p => p
  | .noResponse => none
  | .timeoutError => none
  | .osError => none
  | .attributeError => none

/-- Outcome of `client.connect` + `client.device_info` against the device
native API: device info with its `esphome_version`, or an
`APIConnectionError`. -/
inductive ConnectOutcome where
  | deviceInfo (esphome_version : String)
  | connectionError
deriving Repr, DecidableEq

/-- `ESPHomeDashboardUpdateEntity._async_query_device_version` (update.py
lines 221-247): port from discovery with fallback to `DEFAULT_PORT`, then
an unauthenticated connect and device-info read; a connection error yields
`none`.  Also returns the port used, to state the fallback property. -/
def query_device_version (disc : DiscoveryOutcome) (conn : ConnectOutcome) :
    Option String × Nat :=
  let port := (discover_device_port disc).getD DEFAULT_PORT
  match conn with
  | .deviceInfo v => (some v, port)
  | .connectionError => (none, port)

/-- `ESPHomeDashboardUpdateEntity._async_fetch_device_version` (update.py
lines 249-257): no-op without a (truthy) address; caches the queried
version only when it is truthy. -/
def fetch_device_version (s : EntityState) (disc : DiscoveryOutcome)
    (conn : ConnectOutcome) : EntityState :=
  if truthyStr s.address then
    let v := (query_device_version disc conn).1
    if truthyStr v then { s with cached_device_version := v } else s
  else s

/-- Python f-string rendering of an optional string (`None` prints as
"None"). -/
def optStr : Option String → String
  | none => "None"
  | some s => s

/-- `ESPHomeDashboardUpdateEntity.async_install` (update.py lines 344-397):
raises without an address; compiles, then uploads, raising on either
failure; on success clears the cached version, requests a coordinator
refresh and, absent a live ESPHome source, re-queries the device directly.
The environment (compile/upload success, discovery and connect outcomes) is
passed in; the returned `InstallEffects` record which network calls were
made. -/
def async_install (s : EntityState) (compile_ok upload_ok : Bool)
    (disc : DiscoveryOutcome) (conn : ConnectOutcome) :
    Except String EntityState × InstallEffects :=
  if truthyStr s.address then
    if compile_ok then
      if upload_ok then
        let s1 := { s with cached_device_version := none }
        if s1.esphome_entry_data = none ∧ truthyStr s1.address then
          (.ok (fetch_device_version s1 disc conn),
            ⟨true, true, true, true⟩)
        else
          (.ok s1, ⟨true, true, true, false⟩)
      else
        (.error ("Failed to upload to " ++ s.device_name ++ " at "
            ++ optStr s.address),
          ⟨true, true, false, false⟩)
    else
      (.error ("Failed to compile " ++ s.configuration),
        ⟨true, false, false, false⟩)
  else
    (.error ("Cannot install update: no address available for "
        ++ s.device_name),
      ⟨false, false, false, false⟩)

/-- Entity state after an `async_install` call: the new state on success, or
the unchanged state when the call raised (a raised `HomeAssistantError`
leaves every entity attribute as it was). -/
def installStep (s : EntityState) (compile_ok upload_ok : Bool)
    (disc : DiscoveryOutcome) (conn : ConnectOutcome) : EntityState :=
  match (async_install s compile_ok upload_ok disc conn).1 with
  | .ok s1 => s1
  | .error _ => s

/-- `ESPHomeDashboardUpdateEntity._handle_coordinator_update` (update.py
lines 270-296).  `found` is the result of `_find_esphome_entry_data`, looked
up only when the entity is not yet linked; linking clears the cached
version.  Then the entity attributes are refreshed from the coordinator
data, or availability is dropped when the device name is gone. -/
def handle_coordinator_update (s : EntityState) (found : Option (Option String))
    (data : List (String × ConfiguredDevice)) : EntityState :=
  let s1 :=
    if s.esphome_entry_data = none then
      match found with
      | some info =>
        { s with esphome_entry_data := some info, cached_device_version := none }
      | none => s
    else s
  match lookupDevice data s1.device_name with
  | some dd => update_attrs s1 dd
  | none => { s1 with attr_available := false }

/-- External mutation of the linked live source: the ESPHome integration
replaces its `device_info` (the entity only re-renders in
`_handle_esphome_device_update`, its stored reference now observes the new
value).  A no-op when no live source is linked. -/
def live_source_update (s : EntityState) (info : Option String) : EntityState :=
  match s.esphome_entry_data with
  | some _ => { s with esphome_entry_data := some info }
  | none => s

/-- An atomic event acting on one update entity after it is set up: a
coordinator refresh notification, a change of the linked live source, or an
install action run against a given environment. -/
inductive EntityEvent where
  | coordUpdate (found : Option (Option String))
      (data : List (String × ConfiguredDevice))
  | liveUpdate (info : Option String)
  | installRun (compile_ok upload_ok : Bool) (disc : DiscoveryOutcome)
      (conn : ConnectOutcome)
deriving Repr, DecidableEq

/-- One event step on the entity state. -/
def entityStep (s : EntityState) : EntityEvent → EntityState
  | .coordUpdate found data => handle_coordinator_update s found data
  | .liveUpdate info => live_source_update s info
  | .installRun c u d cn => installStep s c u d cn

/-- Run a sequence of events. -/
def runEvents (s : EntityState) (evs : List EntityEvent) : EntityState :=
  evs.foldl entityStep s

/-- The value `installed_version` yields when it never draws on the cached
tier: the live version when the linked source reports one, otherwise the
dashboard deployed version. -/
def liveOrDashboard (s : EntityState) : Option String :=
  match s.esphome_entry_data with
  | some (some v) => some v
  | _ => s.dashboard_deployed_version

/-- The body of `async_add_update_entities` (update.py lines 85-102) over
one coordinator data snapshot, reduced to device names: walk the names, and
for each name not yet known, add it to the known set and create its entity.
Returns the new known set and the entities created by this call, in
order. -/
def addNewEntities : List String → List String → List String × List String
  | known, [] => (known, [])
  | known, n :: rest =>
    if n ∈ known then addNewEntities known rest
    else
      let r := addNewEntities (n :: known) rest
      (r.1, n :: r.2)

/-- `async_setup_entry` entity discovery (update.py lines 74-108) over a
sequence of coordinator data snapshots: `async_add_update_entities` runs on
setup and again on every coordinator update, sharing the `known_devices`
set.  Returns the final known set and all entities ever created, in
creation order. -/
def runDiscovery : List String → List (List String) → List String × List String
  | known, [] => (known, [])
  | known, snap :: rest =>
    let r1 := addNewEntities known snap
    let r2 := runDiscovery r1.1 rest
    (r2.1, r1.2 ++ r2.2)

/-- `ESPHomeDashboardUpdateEntity.available` (update.py lines 339-342):
the `CoordinatorEntity` availability (last update success) and the device
name still being present in the coordinator data. -/
def entity_available (last_update_success : Bool)
    (data : List (String × ConfiguredDevice)) (s : EntityState) : Bool :=
  last_update_success && (lookupDevice data s.device_name).isSome

/-- The dashboard connection config persisted in the config entry.  A field
value `none` models both an absent key and a key stored with value `None`
(both read back identically through `.get`). -/
structure DashboardConfig where
  url : String
  username : Option String
  password : Option String
deriving Repr, DecidableEq

/-- Python `url.rstrip("/")`. -/
def rstripSlash (s : String) : String :=
  String.mk (s.data.reverse.dropWhile (fun c => c = '/')).reverse

/-- Entry data written by `ESPHomeDashboardConfigFlow.async_step_user`
(config_flow.py lines 104-119) once validation has passed: the stripped
URL always; the username key, and the password key with whatever value the
user gave (possibly `None`), only when the username is truthy. -/
def user_step_data (url : String) (username password : Option String) :
    DashboardConfig :=
  if truthyStr username then
    { url := rstripSlash url, username := username, password := password }
  else
    { url := rstripSlash url, username := none, password := none }

/-- Data updates written by `async_step_reconfigure` (config_flow.py lines
158-172) once validation has passed: credentials stored when the username
is truthy, both cleared to `None` otherwise. -/
def reconfigure_step_data (url : String) (username password : Option String) :
    DashboardConfig :=
  if truthyStr username then
    { url := rstripSlash url, username := username, password := password }
  else
    { url := rstripSlash url, username := none, password := none }

/-- Data updates written by `async_step_reauth_confirm` (config_flow.py
lines 218-231) once validation has passed; the URL is the stored one. -/
def reauth_step_data (stored_url : String) (username password : Option String) :
    DashboardConfig :=
  if truthyStr username then
    { url := stored_url, username := username, password := password }
  else
    { url := stored_url, username := none, password := none }

/-- The claimed credentials invariant: username set if and only if password
set (a field is set when it holds a value, i.e. is not `None`). -/
def credsBothOrNeither (c : DashboardConfig) : Prop :=
  c.username ≠ none ↔ c.password ≠ none

instance (c : DashboardConfig) : Decidable (credsBothOrNeither c) := by
  unfold credsBothOrNeither
  infer_instance

end EsphomeDashboard

open EsphomeDashboard

/-- Entity state with all three version tiers populated. -/
def exStateAllTiers : EntityState :=
  { device_name := "kitchen"
    configuration := "kitchen.yaml"
    address := some "10.0.0.5"
    esphome_entry_data := some (some "2.0")
    cached_device_version := some "1.5"
    dashboard_deployed_version := some "1.0"
    attr_latest_version := some "2.1"
    attr_available := true
    supports_install := true }

/-- Entity state with no live source but a cached value and a dashboard
value. -/
def exStateCached : EntityState :=
  { exStateAllTiers with
    esphome_entry_data := none }

/-- Entity state with only the dashboard value. -/
def exStateDashboardOnly : EntityState :=
  { exStateAllTiers with
    esphome_entry_data := none
    cached_device_version := none }

/-- Device record for "kitchen" without an address. -/
def exDeviceNoAddress : ConfiguredDevice :=
  { name := "kitchen"
    configuration := some "kitchen.yaml"
    address := none
    deployed_version := some "1.0"
    current_version := some "1.1" }

/-- Device record for "kitchen" with no current_version. -/
def exDeviceNoCurrent : ConfiguredDevice :=
  { exDeviceNoAddress with current_version := none }

/-- Device record for "kitchen" with an empty current_version. -/
def exDeviceEmptyCurrent : ConfiguredDevice :=
  { exDeviceNoAddress with current_version := some "" }

/-- Device record for "kitchen" without a configuration filename. -/
def exDeviceNoConfiguration : ConfiguredDevice :=
  { exDeviceNoAddress with configuration := none }

/-- Device record for "kitchen" with an address. -/
def exDeviceKitchen : ConfiguredDevice :=
  { name := "kitchen"
    configuration := some "kitchen.yaml"
    address := some "10.0.0.5"
    deployed_version := some "1.0"
    current_version := some "1.1" }

/-- Coordinator data with the single device "kitchen". -/
def exDashData : List (String × ConfiguredDevice) :=
  indexByName [exDeviceKitchen]

/-- State of a previously cache-resolved entity after a coordinator update
links the live source and the live source then stops reporting a
version. -/
def exAfterLink : EntityState :=
  runEvents
    (entityStep exStateCached (.coordUpdate (some (some "2.0")) exDashData))
    [.liveUpdate none]

/-- C4: a coordinator fetch failing with HTTP status 401 or 403 raises
`ConfigEntryAuthFailed`; a response error with any other status, and any
other exception, raise `UpdateFailed`, a class distinct from the
authentication failure. -/
theorem coordinator_error_classification (status : Nat) (msg m1 m2 : String) :
    (status = 401 ∨ status = 403 →
      coordinator_update_data (.responseError status msg) =
        .configEntryAuthFailed
          "Authentication failed. Please update your credentials.")
    ∧ (status ≠ 401 → status ≠ 403 →
      coordinator_update_data (.responseError status msg) =
        .updateFailed ("Error communicating with dashboard: " ++ msg))
    ∧ coordinator_update_data (.otherError msg) =
        .updateFailed ("Error communicating with dashboard: " ++ msg)
    ∧ UpdateResult.configEntryAuthFailed m1 ≠ UpdateResult.updateFailed m2 := by
  refine ⟨?_, ?_, rfl, by simp⟩
  · intro h
    simp [coordinator_update_data, h]
  · intro h1 h2
    simp [coordinator_update_data, h1, h2]

/-- C4 witness: the classification evaluated at statuses 401, 403, 500 and
at a non-HTTP error. -/
theorem coordinator_error_classification_witness :
    coordinator_update_data (.responseError 401 "unauthorized") =
      .configEntryAuthFailed
        "Authentication failed. Please update your credentials."
    ∧ coordinator_update_data (.responseError 403 "forbidden") =
      .configEntryAuthFailed
        "Authentication failed. Please update your credentials."
    ∧ coordinator_update_data (.responseError 500 "boom") =
      .updateFailed "Error communicating with dashboard: boom"
    ∧ coordinator_update_data (.otherError "timeout") =
      .updateFailed "Error communicating with dashboard: timeout"
    ∧ UpdateResult.configEntryAuthFailed "a" ≠ UpdateResult.updateFailed "a" :=
  ⟨(coordinator_error_classification 401 "unauthorized" "a" "a").1 (Or.inl rfl),
    (coordinator_error_classification 403 "forbidden" "a" "a").1 (Or.inr rfl),
    (coordinator_error_classification 500 "boom" "a" "a").2.1
      (by decide) (by decide),
    (coordinator_error_classification 500 "timeout" "a" "a").2.2.1,
    (coordinator_error_classification 500 "x" "a" "a").2.2.2⟩

/-- C3: install is a strict two-phase sequence.  When compile fails, the
call raises an error naming the configuration file and no upload is
attempted; when compile succeeds and upload fails, the call raises an error
naming the device and its address, the entity state (in particular the
cached device version) is unchanged, and no coordinator refresh and no
direct device query are requested. -/
theorem install_two_phase (s : EntityState) (a : String) (upload_ok : Bool)
    (disc : DiscoveryOutcome) (conn : ConnectOutcome)
    (ha : s.address = some a) (hne : a ≠ "") :
    async_install s false upload_ok disc conn =
      (.error ("Failed to compile " ++ s.configuration),
        ⟨true, false, false, false⟩)
    ∧ async_install s true false disc conn =
      (.error ("Failed to upload to " ++ s.device_name ++ " at " ++ a),
        ⟨true, true, false, false⟩)
    ∧ installStep s false upload_ok disc conn = s
    ∧ installStep s true false disc conn = s := by
  have htr : truthyStr s.address = true := by
    simp [truthyStr, ha, hne]
  refine ⟨?_, ?_, ?_, ?_⟩
  · simp [async_install, htr]
  · simp [async_install, htr, ha, optStr, truthyStr, hne]
  · simp [installStep, async_install, htr]
  · simp [installStep, async_install, htr]

/-- C3 witness: both failure phases evaluated on a concrete entity. -/
theorem install_two_phase_witness :
    async_install exStateCached false true .noResponse .connectionError =
      (.error "Failed to compile kitchen.yaml",
        ⟨true, false, false, false⟩)
    ∧ async_install exStateCached true false .noResponse .connectionError =
      (.error "Failed to upload to kitchen at 10.0.0.5",
        ⟨true, true, false, false⟩)
    ∧ installStep exStateCached false true .noResponse .connectionError =
      exStateCached
    ∧ installStep exStateCached true false .noResponse .connectionError =
      exStateCached := by
  have h := install_two_phase exStateCached "10.0.0.5" true
    .noResponse .connectionError rfl (by decide)
  have h' := install_two_phase exStateCached "10.0.0.5" true
    .noResponse .connectionError rfl (by decide)
  exact ⟨h.1, h.2.1, h'.2.2.1, h'.2.2.2⟩

/-- C5: for a device record with no address, `_update_attrs` turns the
install feature off, and `async_install` in that state raises an error
naming the device while performing no network calls at all (no compile, no
upload, no refresh, no device query). -/
theorem install_requires_address (s : EntityState) (dd : ConfiguredDevice)
    (compile_ok upload_ok : Bool) (disc : DiscoveryOutcome)
    (conn : ConnectOutcome) (hdd : dd.address = none) :
    (update_attrs s dd).supports_install = false
    ∧ (update_attrs s dd).address = none
    ∧ async_install (update_attrs s dd) compile_ok upload_ok disc conn =
      (.error ("Cannot install update: no address available for "
          ++ s.device_name),
        ⟨false, false, false, false⟩) := by
  refine ⟨?_, ?_, ?_⟩
  · simp [update_attrs, hdd, truthyStr]
  · simp [update_attrs, hdd]
  · simp [async_install, update_attrs, hdd, truthyStr]

/-- C5 witness: install rejected on a concrete addressless record. -/
theorem install_requires_address_witness :
    (update_attrs exStateCached exDeviceNoAddress).supports_install = false
    ∧ (update_attrs exStateCached exDeviceNoAddress).address = none
    ∧ async_install (update_attrs exStateCached exDeviceNoAddress)
        true true .noResponse .connectionError =
      (.error "Cannot install update: no address available for kitchen",
        ⟨false, false, false, false⟩) :=
  install_requires_address exStateCached exDeviceNoAddress true true
    .noResponse .connectionError rfl

/-- C1: reading `installed_version` follows the fixed three-tier priority:
with a linked live ESPHome source reporting a version (and a cached value and
a dashboard deployed version also present) it returns the live version; with
no live source it returns the cached direct-query version; with neither it
returns the dashboard deployed version. -/
theorem installed_version_tier_priority (s : EntityState) (v c d : String) :
    (s.esphome_entry_data = some (some v) →
      s.cached_device_version = some c →
      s.dashboard_deployed_version = some d →
      installed_version s = some v)
    ∧ (s.esphome_entry_data = none →
      s.cached_device_version = some c → c ≠ "" →
      s.dashboard_deployed_version = some d →
      installed_version s = some c)
    ∧ (s.esphome_entry_data = none →
      s.cached_device_version = none →
      s.dashboard_deployed_version = some d →
      installed_version s = some d) := by
  refine ⟨?_, ?_, ?_⟩
  · intro h1 _ _
    simp [installed_version, h1]
  · intro h1 h2 h3 _
    simp [installed_version, h1, h2, truthyStr, h3]
  · intro h1 h2 h3
    simp [installed_version, h1, h2, truthyStr, h3]

/-- C1 witness: the three tiers evaluated on concrete states. -/
theorem installed_version_tier_priority_witness :
    installed_version exStateAllTiers = some "2.0"
    ∧ installed_version exStateCached = some "1.5"
    ∧ installed_version exStateDashboardOnly = some "1.0" :=
  ⟨(installed_version_tier_priority exStateAllTiers "2.0" "1.5" "1.0").1
      rfl rfl rfl,
    (installed_version_tier_priority exStateCached "2.0" "1.5" "1.0").2.1
      rfl rfl (by decide) rfl,
    (installed_version_tier_priority exStateDashboardOnly "2.0" "1.5" "1.0").2.2
      rfl rfl rfl⟩

/-- C8: the direct device query uses the fixed 3-second discovery timeout;
every discovery failure (no response within the timeout, TimeoutError,
OSError, AttributeError) makes the query fall back to the default port
6053; and a connection failure yields no version and leaves the entity
state — in particular the cached tier — exactly as it was, the query
functions being total (no error propagates to the user). -/
theorem direct_query_fail_soft (conn : ConnectOutcome)
    (disc : DiscoveryOutcome) (s : EntityState) :
    MDNS_DISCOVERY_TIMEOUT_SECONDS = 3
    ∧ DEFAULT_PORT = 6053
    ∧ (query_device_version .noResponse conn).2 = DEFAULT_PORT
    ∧ (query_device_version .timeoutError conn).2 = DEFAULT_PORT
    ∧ (query_device_version .osError conn).2 = DEFAULT_PORT
    ∧ (query_device_version .attributeError conn).2 = DEFAULT_PORT
    ∧ (query_device_version disc .connectionError).1 = none
    ∧ fetch_device_version s disc .connectionError = s := by
  refine ⟨rfl, rfl, ?_, ?_, ?_, ?_, ?_, ?_⟩
  · cases conn <;> rfl
  · cases conn <;> rfl
  · cases conn <;> rfl
  · cases conn <;> rfl
  · rfl
  · by_cases ha : truthyStr s.address = true <;>
      simp [fetch_device_version, query_device_version, truthyStr, ha]

/-- C9: `_update_attrs` sets `latest_version` to the record current_version
when that is present and non-empty, and otherwise (absent or empty) falls
back to the record deployed_version. -/
theorem latest_version_fallback (s : EntityState) (dd : ConfiguredDevice)
    (v : String) :
    (dd.current_version = some v → v ≠ "" →
      (update_attrs s dd).attr_latest_version = some v)
    ∧ (dd.current_version = none →
      (update_attrs s dd).attr_latest_version = dd.deployed_version)
    ∧ (dd.current_version = some "" →
      (update_attrs s dd).attr_latest_version = dd.deployed_version) := by
  refine ⟨?_, ?_, ?_⟩
  · intro h1 h2
    simp [update_attrs, h1, truthyStr, h2]
  · intro h1
    simp [update_attrs, h1, truthyStr]
  · intro h1
    simp [update_attrs, h1, truthyStr]

/-- C9 witness: the latest_version fallback on concrete records. -/
theorem latest_version_fallback_witness :
    (update_attrs exStateCached exDeviceNoAddress).attr_latest_version =
      some "1.1"
    ∧ (update_attrs exStateCached exDeviceNoCurrent).attr_latest_version =
      exDeviceNoCurrent.deployed_version
    ∧ (update_attrs exStateCached exDeviceEmptyCurrent).attr_latest_version =
      exDeviceEmptyCurrent.deployed_version :=
  ⟨(latest_version_fallback exStateCached exDeviceNoAddress "1.1").1
      rfl (by decide),
    (latest_version_fallback exStateCached exDeviceNoCurrent "1.1").2.1 rfl,
    (latest_version_fallback exStateCached exDeviceEmptyCurrent "1.1").2.2 rfl⟩

/-- C10: when the device record carries no configuration filename, the
entity is initialized with `<device_name>.yaml` as the configuration used
for compile and upload. -/
theorem default_configuration_filename (device_name : String)
    (dd : ConfiguredDevice) (h : dd.configuration = none) :
    (initEntity device_name dd).configuration = device_name ++ ".yaml" := by
  simp [initEntity, update_attrs, h]

/-- C10 witness: the default configuration filename on a concrete record. -/
theorem default_configuration_filename_witness :
    (initEntity "kitchen" exDeviceNoConfiguration).configuration =
      "kitchen" ++ ".yaml" :=
  default_configuration_filename "kitchen" exDeviceNoConfiguration rfl

/-- Helper: one entity event preserves "linked with empty cached tier". -/
theorem entityStep_preserves_linked (s : EntityState) (e : EntityEvent)
    (h1 : s.esphome_entry_data ≠ none)
    (h2 : s.cached_device_version = none) :
    (entityStep s e).esphome_entry_data ≠ none
    ∧ (entityStep s e).cached_device_version = none := by
  cases e with
  | coordUpdate found data =>
    unfold entityStep handle_coordinator_update
    simp only [if_neg h1]
    cases hl : lookupDevice data s.device_name <;>
      simp [hl, update_attrs, h1, h2]
  | liveUpdate info =>
    obtain ⟨i, hi⟩ := Option.ne_none_iff_exists'.mp h1
    simp [entityStep, live_source_update, hi, h2]
  | installRun c u d cn =>
    cases c <;> cases u <;> by_cases ha : truthyStr s.address = true <;>
      simp [entityStep, installStep, async_install, ha, h1, h2]

/-- Helper: a sequence of entity events preserves "linked with empty cached
tier". -/
theorem runEvents_preserves_linked (evs : List EntityEvent) :
    ∀ s : EntityState, s.esphome_entry_data ≠ none →
      s.cached_device_version = none →
      (runEvents s evs).esphome_entry_data ≠ none
      ∧ (runEvents s evs).cached_device_version = none := by
  induction evs with
  | nil => intro s h1 h2; exact ⟨h1, h2⟩
  | cons e rest ih =>
    intro s h1 h2
    have h := entityStep_preserves_linked s e h1 h2
    simpa [runEvents, List.foldl] using ih (entityStep s e) h.1 h.2

/-- Helper: a coordinator update that finds a live ESPHome source for a
previously unlinked entity links it and clears the cached tier. -/
theorem handle_coordinator_update_links (s : EntityState)
    (info : Option String) (data : List (String × ConfiguredDevice))
    (h : s.esphome_entry_data = none) :
    (handle_coordinator_update s (some info) data).esphome_entry_data =
      some info
    ∧ (handle_coordinator_update s (some info) data).cached_device_version =
      none := by
  unfold handle_coordinator_update
  simp only [h, if_pos rfl]
  cases hl : lookupDevice data s.device_name <;>
    simp [hl, update_attrs]

/-- Helper: with the cached tier unset, `installed_version` reads the live
tier when it reports a version and the dashboard tier otherwise. -/
theorem installed_version_skips_empty_cache (t : EntityState)
    (h : t.cached_device_version = none) :
    installed_version t = liveOrDashboard t := by
  unfold installed_version liveOrDashboard
  cases he : t.esphome_entry_data with
  | none => simp [h, truthyStr]
  | some i => cases i <;> simp [h, truthyStr]

/-- C2: once a live ESPHome source becomes linked on a coordinator refresh,
then after any further sequence of coordinator updates, live-source changes
and install runs, the entity stays linked, its cached tier stays cleared,
and `installed_version` never draws on the previously cached value again:
it returns the live version when reported, and the dashboard deployed
version otherwise (in particular when the live source no longer reports a
version). -/
theorem live_link_supersedes_cache (s : EntityState) (info : Option String)
    (data : List (String × ConfiguredDevice)) (evs : List EntityEvent)
    (t : EntityState) (hun : s.esphome_entry_data = none)
    (ht : t = runEvents (entityStep s (.coordUpdate (some info) data)) evs) :
    t.esphome_entry_data ≠ none
    ∧ t.cached_device_version = none
    ∧ installed_version t = liveOrDashboard t := by
  subst ht
  have hl := handle_coordinator_update_links s info data hun
  have h1 : (entityStep s (.coordUpdate (some info) data)).esphome_entry_data
      ≠ none := by
    simp [entityStep, hl.1]
  have h2 : (entityStep s (.coordUpdate (some info) data)).cached_device_version
      = none := by
    simp [entityStep, hl.2]
  have hr := runEvents_preserves_linked evs _ h1 h2
  exact ⟨hr.1, hr.2, installed_version_skips_empty_cache _ hr.2⟩

/-- C2 witness: the linked, cache-cleared state of a concrete entity whose
live source was linked and then stopped reporting a version. -/
theorem live_link_supersedes_cache_witness :
    exAfterLink.esphome_entry_data ≠ none
    ∧ exAfterLink.cached_device_version = none
    ∧ installed_version exAfterLink = liveOrDashboard exAfterLink :=
  live_link_supersedes_cache exStateCached (some "2.0") exDashData
    [.liveUpdate none] exAfterLink rfl rfl

/-- Helper: the known set after one `async_add_update_entities` call holds
exactly the previously known names and the names of the snapshot. -/
theorem addNewEntities_mem_fst (names : List String) :
    ∀ (known : List String) (x : String),
      x ∈ (addNewEntities known names).1 ↔ x ∈ known ∨ x ∈ names := by
  induction names with
  | nil => intro known x; simp [addNewEntities]
  | cons n rest ih =>
    intro known x
    by_cases h : n ∈ known
    · rw [addNewEntities, if_pos h, ih]
      constructor
      · rintro (hx | hx)
        · exact Or.inl hx
        · exact Or.inr (List.mem_cons_of_mem n hx)
      · rintro (hx | hx)
        · exact Or.inl hx
        · rcases List.mem_cons.mp hx with rfl | hx
          · exact Or.inl h
          · exact Or.inr hx
    · rw [addNewEntities, if_neg h]
      simp only [ih (n :: known) x, List.mem_cons]
      tauto

/-- Helper: one `async_add_update_entities` call creates exactly the names
of the snapshot that were not yet known. -/
theorem addNewEntities_mem_snd (names : List String) :
    ∀ (known : List String) (x : String),
      x ∈ (addNewEntities known names).2 ↔ x ∉ known ∧ x ∈ names := by
  induction names with
  | nil => intro known x; simp [addNewEntities]
  | cons n rest ih =>
    intro known x
    by_cases h : n ∈ known
    · rw [addNewEntities, if_pos h, ih]
      constructor
      · rintro ⟨hk, hx⟩
        exact ⟨hk, List.mem_cons_of_mem n hx⟩
      · rintro ⟨hk, hx⟩
        refine ⟨hk, ?_⟩
        rcases List.mem_cons.mp hx with rfl | hx
        · exact absurd h hk
        · exact hx
    · rw [addNewEntities, if_neg h]
      simp only [List.mem_cons, ih (n :: known) x]
      constructor
      · rintro (rfl | ⟨hk, hx⟩)
        · exact ⟨h, Or.inl rfl⟩
        · exact ⟨fun hx' => hk (Or.inr hx'), Or.inr hx⟩
      · rintro ⟨hk, rfl | hx⟩
        · exact Or.inl rfl
        · by_cases hxn : x = n
          · exact Or.inl hxn
          · exact Or.inr ⟨by simp [hxn, hk], hx⟩

/-- Helper: one `async_add_update_entities` call never creates the same
name twice. -/
theorem addNewEntities_nodup (names : List String) :
    ∀ known : List String, (addNewEntities known names).2.Nodup := by
  induction names with
  | nil => intro known; simp [addNewEntities]
  | cons n rest ih =>
    intro known
    by_cases h : n ∈ known
    · rw [addNewEntities, if_pos h]
      exact ih known
    · rw [addNewEntities, if_neg h]
      refine List.Nodup.cons ?_ (ih (n :: known))
      intro hn
      exact ((addNewEntities_mem_snd rest (n :: known) n).mp hn).1
        (List.mem_cons_self n known)

/-- Helper: across a sequence of snapshots, a name is created exactly when
it appears in some snapshot and was not known at the start. -/
theorem runDiscovery_mem_snd (snaps : List (List String)) :
    ∀ (known : List String) (x : String),
      x ∈ (runDiscovery known snaps).2 ↔
        x ∉ known ∧ ∃ snap ∈ snaps, x ∈ snap := by
  induction snaps with
  | nil => intro known x; simp [runDiscovery]
  | cons snap rest ih =>
    intro known x
    rw [runDiscovery]
    simp only [List.mem_append, addNewEntities_mem_snd, ih,
      addNewEntities_mem_fst, List.mem_cons]
    constructor
    · rintro (⟨hk, hx⟩ | ⟨hk, s, hs, hx⟩)
      · exact ⟨hk, snap, Or.inl rfl, hx⟩
      · exact ⟨fun h => hk (Or.inl h), s, Or.inr hs, hx⟩
    · rintro ⟨hk, s, rfl | hs, hx⟩
      · exact Or.inl ⟨hk, hx⟩
      · by_cases hsnap : x ∈ snap
        · exact Or.inl ⟨hk, hsnap⟩
        · exact Or.inr ⟨by simp [hk, hsnap], s, hs, hx⟩

/-- Helper: across a sequence of snapshots, no name is ever created
twice. -/
theorem runDiscovery_nodup (snaps : List (List String)) :
    ∀ known : List String, (runDiscovery known snaps).2.Nodup := by
  induction snaps with
  | nil => intro known; simp [runDiscovery]
  | cons snap rest ih =>
    intro known
    rw [runDiscovery]
    refine List.Nodup.append (addNewEntities_nodup snap known)
      (ih (addNewEntities known snap).1) ?_
    intro x hx1 hx2
    have h1 := (addNewEntities_mem_snd snap known x).mp hx1
    have h2 := (runDiscovery_mem_snd rest (addNewEntities known snap).1 x).mp hx2
    exact h2.1 ((addNewEntities_mem_fst snap known x).mpr (Or.inr h1.2))

/-- C6: over any sequence of coordinator data snapshots, starting from an
empty known set, each device name is materialized as an entity at most once
(the created list has no duplicates), a name is materialized exactly when it
appears in some snapshot, an entity once created is never removed by later
snapshots, and an entity whose device name is absent from the current
coordinator data reports `available = false`. -/
theorem entity_discovery_idempotent (snaps more : List (List String))
    (x : String) (success : Bool)
    (data : List (String × ConfiguredDevice)) (s : EntityState)
    (habsent : lookupDevice data s.device_name = none) :
    (runDiscovery [] snaps).2.Nodup
    ∧ (x ∈ (runDiscovery [] snaps).2 ↔ ∃ snap ∈ snaps, x ∈ snap)
    ∧ (x ∈ (runDiscovery [] snaps).2 →
        x ∈ (runDiscovery [] (snaps ++ more)).2)
    ∧ entity_available success data s = false := by
  refine ⟨runDiscovery_nodup snaps [], ?_, ?_, ?_⟩
  · rw [runDiscovery_mem_snd]
    simp
  · intro hx
    rw [runDiscovery_mem_snd] at hx ⊢
    obtain ⟨hk, snap, hs, hxs⟩ := hx
    exact ⟨hk, snap, List.mem_append_left more hs, hxs⟩
  · simp [entity_available, habsent]

/-- C6 witness: discovery over two concrete snapshots, one later snapshot,
and availability of a concrete entity against data without its name. -/
theorem entity_discovery_idempotent_witness :
    (runDiscovery [] [["kitchen"], ["kitchen", "living"]]).2.Nodup
    ∧ ("kitchen" ∈ (runDiscovery [] [["kitchen"], ["kitchen", "living"]]).2 ↔
        ∃ snap ∈ [["kitchen"], ["kitchen", "living"]], "kitchen" ∈ snap)
    ∧ ("kitchen" ∈ (runDiscovery [] [["kitchen"], ["kitchen", "living"]]).2 →
        "kitchen" ∈
          (runDiscovery [] ([["kitchen"], ["kitchen", "living"]]
            ++ [["other"]])).2)
    ∧ entity_available true [] exStateCached = false :=
  entity_discovery_idempotent [["kitchen"], ["kitchen", "living"]]
    [["other"]] "kitchen" true [] exStateCached rfl

/-- C7 counterexample: completing the user step with a username and no
password stores a config whose username is set while its password is not,
so the both-or-neither credentials invariant fails on the stored config. -/
theorem creds_pair_counterexample :
    (user_step_data "http://dash.local:6052" (some "admin") none).username =
      some "admin"
    ∧ (user_step_data "http://dash.local:6052" (some "admin") none).password =
      none
    ∧ ¬ credsBothOrNeither
        (user_step_data "http://dash.local:6052" (some "admin") none) := by
  refine ⟨by decide, by decide, ?_⟩
  intro h
  have := h.mp (by decide)
  exact this (by decide)

/-- C7 (amended): for every config-flow, reconfigure, or reauth completion,
the stored dashboard connection config satisfies only one direction of the
credentials pairing: if the password is set then the username is set; the
converse fails, since a username supplied without a password is stored with
the password unset. -/
theorem creds_password_requires_username (url stored_url : String)
    (username password : Option String) :
    ((user_step_data url username password).password ≠ none →
      (user_step_data url username password).username ≠ none)
    ∧ ((reconfigure_step_data url username password).password ≠ none →
      (reconfigure_step_data url username password).username ≠ none)
    ∧ ((reauth_step_data stored_url username password).password ≠ none →
      (reauth_step_data stored_url username password).username ≠ none) := by
  by_cases h : truthyStr username = true
  · have hu : username ≠ none := by
      cases username with
      | none => simp [truthyStr] at h
      | some u => exact fun hc => Option.noConfusion hc
    refine ⟨?_, ?_, ?_⟩ <;>
      · intro _
        simp [user_step_data, reconfigure_step_data, reauth_step_data, h, hu]
  · refine ⟨?_, ?_, ?_⟩ <;>
      · intro hp
        exact absurd (by
          simp [user_step_data, reconfigure_step_data, reauth_step_data, h])
          hp

/-- C7 (amended) witness: the password-requires-username direction applied
to a concrete completion that supplies both credentials. -/
theorem creds_password_requires_username_witness :
    (user_step_data "http://dash.local:6052" (some "admin")
        (some "pw")).username ≠ none
    ∧ (reconfigure_step_data "http://dash.local:6052" (some "admin")
        (some "pw")).username ≠ none
    ∧ (reauth_step_data "http://dash.local:6052" (some "admin")
        (some "pw")).username ≠ none :=
  ⟨(creds_password_requires_username "http://dash.local:6052"
      "http://dash.local:6052" (some "admin") (some "pw")).1 (by decide),
    (creds_password_requires_username "http://dash.local:6052"
      "http://dash.local:6052" (some "admin") (some "pw")).2.1 (by decide),
    (creds_password_requires_username "http://dash.local:6052"
      "http://dash.local:6052" (some "admin") (some "pw")).2.2 (by decide)⟩
